import Mathlib

/-!
Verification of the stock-status / alert classification logic of the
Inventory-Project repository.

The definitions below are a shallow embedding of the JavaScript source:
the frontend inventory/alerts modules (`getProductPriority`,
`calculateStockStatus`, `generateAlerts`, `estimateDaysUntilEmpty`,
`calculateSuggestedQuantity`, `exportAlertsAsCSV`, `getDisplayAlerts`,
`getHiddenAlertCount`, `updateStock`), the backend controllers
(`updateStock` stock-delta endpoint, whose classifier helpers inline the
same resolution logic as the frontend module), and the role-based
permission checks (`canModifyStock`, `canManageProducts`,
`canManagePriorities`).

JavaScript numbers are modelled as `Int`; the JS "or with fallback"
idiom `x || d`, which takes `d` on any falsy value, is modelled
explicitly (`0` is falsy for numbers, the empty string is falsy for
strings, and an absent field is falsy).  Statuses are the five string
constants of `STOCK_STATUS`, modelled as an inductive type.
-/

/-- The five values of the `STOCK_STATUS` constant table
(`urgent`, `normal`, `info`, `good`, `optimal`). -/
inductive StockStatus where
  | urgent
  | normal
  | info
  | good
  | optimal
deriving DecidableEq, BEq

/-- An inventory item as stored in the `inventory` collection.  `priority`
and `alertThreshold` are optional fields (absent = `none`); `some ""` and
`some 0` model present-but-falsy values, which JS `||` treats like absent
ones. -/
structure Item where
  name : String
  category : String
  stock : Int
  priority : Option String
  alertThreshold : Option Int
deriving DecidableEq

/-- A resolved priority configuration `\x7bpriority, threshold\x7d`. -/
structure PriorityConfig where
  priority : String
  threshold : Int
deriving DecidableEq

/-- JS `v || d` on an optional string field: the default is taken when the
field is absent or the empty string (the falsy string). -/
def jsOrStr (v : Option String) (d : String) : String :=
  match v with
  | some s => if s = "" then d else s
  | none => d

/-- JS `v || d` on an optional numeric field: the default is taken when the
field is absent or `0` (the falsy number). -/
def jsOrInt (v : Option Int) (d : Int) : Int :=
  match v with
  | some n => if n = 0 then d else n
  | none => d

/-- The `DEFAULT_PRIORITIES` table: per-category default priority and
threshold; `none` for categories outside the table. -/
def DEFAULT_PRIORITIES (category : String) : Option PriorityConfig :=
  if category = "Spirits" then some ⟨"high", 2⟩
  else if category = "Wines" then some ⟨"medium", 3⟩
  else if category = "Beers" then some ⟨"medium", 6⟩
  else if category = "Soft Drinks" then some ⟨"low", 12⟩
  else if category = "Syrups" then some ⟨"medium", 2⟩
  else none

/-- `getProductPriority(product)`: resolves the priority configuration from
the item's own fields, falling back per field to the category default
(`DEFAULT_PRIORITIES[product.category] || \x7bpriority:'medium',threshold:3\x7d`).
The backend controllers inline the same two `||` chains
(`item.alertThreshold || DEFAULT_PRIORITIES[item.category]?.threshold || 3`). -/
def getProductPriority (product : Item) : PriorityConfig :=
  let categoryDefault := (DEFAULT_PRIORITIES product.category).getD ⟨"medium", 3⟩
  { priority := jsOrStr product.priority categoryDefault.priority
    threshold := jsOrInt product.alertThreshold categoryDefault.threshold }

/-- The `\x7bstatus, message\x7d` object returned by `calculateStockStatus`. -/
structure StatusResult where
  status : StockStatus
  message : String
deriving DecidableEq

/-- `calculateStockStatus(product)`: if `stock <= threshold`, a `switch` on
the resolved priority returns urgent/normal/info; a priority matching no
`case` falls through the `switch` and reaches the final `return` (optimal).
`else if stock <= threshold * 2` returns good; otherwise optimal. -/
def calculateStockStatus (product : Item) : StatusResult :=
  let config := getProductPriority product
  let stock := product.stock
  let threshold := config.threshold
  if stock ≤ threshold then
    if config.priority = "high" then
      { status := StockStatus.urgent, message := "URGENT: Needs immediate restock!" }
    else if config.priority = "medium" then
      { status := StockStatus.normal, message := "Normal: Restock soon" }
    else if config.priority = "low" then
      { status := StockStatus.info, message := "Info: Low stock noted" }
    else
      { status := StockStatus.optimal, message := "Optimal: Well stocked" }
  else if stock ≤ threshold * 2 then
    { status := StockStatus.good, message := "Good: Stock adequate" }
  else
    { status := StockStatus.optimal, message := "Optimal: Well stocked" }

/-- `Math.ceil(a / b)` for a positive integer divisor `b` (Lean `/` on `Int`
is floor division for positive divisors, and ceil is the negated floor of
the negation). -/
def jsCeilDiv (a b : Int) : Int :=
  -((-a) / b)

/-- `estimateDaysUntilEmpty(product)`:
`Math.max(1, Math.ceil(product.stock / averageDailyConsumption))` with an
assumed consumption of 2 units/day. -/
def estimateDaysUntilEmpty (product : Item) : Int :=
  let averageDailyConsumption : Int := 2
  max 1 (jsCeilDiv product.stock averageDailyConsumption)

/-- `calculateSuggestedQuantity(product, config)`:
`Math.max(minimumOrder, targetStock - product.stock)` with
`targetStock = threshold * 3` and `minimumOrder = 10`. -/
def calculateSuggestedQuantity (product : Item) (config : PriorityConfig) : Int :=
  let targetStock := config.threshold * 3
  let minimumOrder : Int := 10
  let neededQuantity := targetStock - product.stock
  max minimumOrder neededQuantity

/-- An alert record as pushed by `generateAlerts` / built by `getAlerts`. -/
structure Alert where
  product : Item
  status : StockStatus
  message : String
  priority : String
  threshold : Int
  daysUntilEmpty : Int
  suggestedQuantity : Int
deriving DecidableEq

/-- The membership test
`[STOCK_STATUS.URGENT, STOCK_STATUS.NORMAL, STOCK_STATUS.INFO].includes(s)`. -/
def needsAttention (s : StockStatus) : Bool :=
  s == StockStatus.urgent || s == StockStatus.normal || s == StockStatus.info

/-- The alert object `generateAlerts` pushes for one product that needs
attention. -/
def mkAlert (product : Item) : Alert :=
  let stockInfo := calculateStockStatus product
  let config := getProductPriority product
  { product := product
    status := stockInfo.status
    message := stockInfo.message
    priority := config.priority
    threshold := config.threshold
    daysUntilEmpty := estimateDaysUntilEmpty product
    suggestedQuantity := calculateSuggestedQuantity product config }

/-- The `priorityOrder` lookup object of the sort comparator: urgent 3,
normal 2, info 1.  The JS object has no key for good/optimal (lookups
would give `undefined`), but the sorted list only ever holds the three
alert statuses; any total extension is equivalent there, so they map
to 0. -/
def priorityOrder : StockStatus → Nat
  | StockStatus.urgent => 3
  | StockStatus.normal => 2
  | StockStatus.info => 1
  | StockStatus.good => 0
  | StockStatus.optimal => 0

/-- The sort comparator `(a, b) => priorityOrder[b.status] - priorityOrder[a.status]`
as the "a may come before b" boolean relation of a stable sort (the
comparator is non-positive exactly when `priorityOrder[a] >= priorityOrder[b]`). -/
def alertLE (a b : Alert) : Bool :=
  decide (priorityOrder b.status ≤ priorityOrder a.status)

/-- `generateAlerts()`: one pass over the inventory items pushing an alert
for every item whose status needs attention, then a stable sort by the
urgency comparator (JS `Array.prototype.sort` is stable; `mergeSort` is the
stable sort in Lean). -/
def generateAlerts (inventoryItems : List Item) : List Alert :=
  let alerts :=
    (inventoryItems.filter
      (fun product => needsAttention (calculateStockStatus product).status)).map mkAlert
  alerts.mergeSort alertLE

/-- `MAX_VISIBLE_ALERTS` (config/constants.js). -/
def MAX_VISIBLE_ALERTS : Nat := 6

/-- `getDisplayAlerts()`: `alertState.alerts.slice(0, MAX_VISIBLE_ALERTS)`,
as a function of the current alerts list. -/
def getDisplayAlerts (alerts : List Alert) : List Alert :=
  alerts.take MAX_VISIBLE_ALERTS

/-- `getHiddenAlertCount()`: `Math.max(0, alertState.alerts.length - MAX_VISIBLE_ALERTS)`. -/
def getHiddenAlertCount (alerts : List Alert) : Int :=
  max 0 ((alerts.length : Int) - (MAX_VISIBLE_ALERTS : Int))

/-- `Array.prototype.join(sep)`: the elements joined with the separator
(the empty string for an empty array). -/
def joinWith (sep : String) : List String → String
  | [] => ""
  | x :: xs => xs.foldl (fun acc cell => acc ++ sep ++ cell) x

/-- The header cells of `exportAlertsAsCSV`. -/
def csvHeaders : List String :=
  ["Product", "Category", "Current Stock", "Threshold", "Priority", "Status",
   "Message", "Days Until Empty", "Suggested Quantity"]

/-- The template `"${name}"` used for the Product and Message cells: the
string is wrapped in double quotes verbatim (no escaping of embedded
double quotes is performed). -/
def quoteField (s : String) : String :=
  "\"" ++ s ++ "\""

/-- `alert.status.toUpperCase()` on the five status strings. -/
def statusUpper : StockStatus → String
  | StockStatus.urgent => "URGENT"
  | StockStatus.normal => "NORMAL"
  | StockStatus.info => "INFO"
  | StockStatus.good => "GOOD"
  | StockStatus.optimal => "OPTIMAL"

/-- One data row of `exportAlertsAsCSV`: the nine cells joined by `,`. -/
def csvRow (alert : Alert) : String :=
  joinWith ","
    [quoteField alert.product.name,
     alert.product.category,
     toString alert.product.stock,
     toString alert.threshold,
     alert.priority,
     statusUpper alert.status,
     quoteField alert.message,
     toString alert.daysUntilEmpty,
     toString alert.suggestedQuantity]

/-- `exportAlertsAsCSV()`: `[headers.join(','), ...rows].join('\n')`, as a
function of the current alerts list. -/
def exportAlertsAsCSV (alerts : List Alert) : String :=
  joinWith "\n" (joinWith "," csvHeaders :: alerts.map csvRow)

/-- The backend stock-delta endpoint `updateStock`
(`PATCH /api/inventory/:id/stock`), as a function of the item's current
stock and the request's `\x7bquantity, action\x7d`: a falsy `action` is
rejected up front; `add` stores `currentStock + quantity` unconditionally;
`subtract` computes `currentStock - quantity` and throws a 400 error when
the result would be negative (the store is only written on success); any
other action is a 400 error. -/
def updateStock (currentStock : Int) (quantity : Int) (action : String) :
    Except (Nat × String) Int :=
  if action = "" then
    Except.error (400, "Quantity and action are required")
  else if action = "add" then
    Except.ok (currentStock + quantity)
  else if action = "subtract" then
    let newStock := currentStock - quantity
    if newStock < 0 then
      Except.error (400, "Cannot have negative stock")
    else
      Except.ok newStock
  else
    Except.error (400, "Action must be \"add\" or \"subtract\"")

/-- The stored stock after a backend `updateStock` call: a thrown
`ApiError` aborts the handler before `docRef.update`, so the stored value
is unchanged on error. -/
def applyStockUpdate (currentStock quantity : Int) (action : String) : Int :=
  match updateStock currentStock quantity action with
  | Except.ok newStock => newStock
  | Except.error _ => currentStock

/-- The frontend module's `updateStock(itemId, newStock, updatedBy)`: it
rejects with `NEGATIVE_STOCK` when `newStock < 0`, otherwise writes
`newStock`. -/
def updateStockFrontend (newStock : Int) : Except String Int :=
  if newStock < 0 then
    Except.error "NEGATIVE_STOCK"
  else
    Except.ok newStock

/-- The app's auth state: `currentUser` (the signed-in email, or `none`)
and the derived `userRole` string. -/
structure AuthState where
  currentUser : Option String
  userRole : String
deriving DecidableEq

/-- The static `USER_ROLES` email-to-role table. -/
def USER_ROLES (email : String) : Option String :=
  if email = "admin@wishbone.com" then some "admin"
  else if email = "manager@wishbone.com" then some "manager"
  else if email = "staff@wishbone.com" then some "staff"
  else none

/-- The auth state established by `onAuthStateChanged`: on sign-in,
`userRole = USER_ROLES[user.email] || 'staff'`; on sign-out,
`currentUser = null` and `userRole = 'staff'`. -/
def authStateFor (user : Option String) : AuthState :=
  match user with
  | some email => { currentUser := some email, userRole := (USER_ROLES email).getD "staff" }
  | none => { currentUser := none, userRole := "staff" }

/-- `canModifyStock()`: `currentUser !== null`. -/
def canModifyStock (s : AuthState) : Bool :=
  s.currentUser.isSome

/-- `canManageProducts()`: `userRole === 'admin' || userRole === 'manager'`. -/
def canManageProducts (s : AuthState) : Bool :=
  s.userRole == "admin" || s.userRole == "manager"

/-- `canManagePriorities()`: `userRole === 'admin'`. -/
def canManagePriorities (s : AuthState) : Bool :=
  s.userRole == "admin"

/-- A sample fully-defaulted Spirits item: resolved priority high,
threshold 2. -/
def spiritsSample : Item :=
  { name := "Vodka", category := "Spirits", stock := 1, priority := none,
    alertThreshold := none }

/-- An item named after the whiskey, used by the CSV export test: a
Spirits item at stock 1 (URGENT under the high/2 default). -/
def jackDanielsItem : Item :=
  { name := "Jack Daniel\x27s", category := "Spirits", stock := 1,
    priority := none, alertThreshold := none }

/-- An item whose name embeds a double-quote character. -/
def csvBadItem : Item :=
  { name := "Bad\"Name", category := "Spirits", stock := 1,
    priority := none, alertThreshold := none }

/-- Mixed-batch sample: classifies as NORMAL (Wines default medium/3,
stock 2). -/
def normalSample : Item :=
  { name := "Merlot", category := "Wines", stock := 2, priority := none,
    alertThreshold := none }

/-- Mixed-batch sample: classifies as INFO (Soft Drinks default low/12,
stock 5). -/
def infoSample : Item :=
  { name := "Cola", category := "Soft Drinks", stock := 5, priority := none,
    alertThreshold := none }

/-- Mixed-batch sample: classifies as GOOD (Wines default medium/3,
stock 5). -/
def goodSample : Item :=
  { name := "Rioja", category := "Wines", stock := 5, priority := none,
    alertThreshold := none }

/-- Mixed-batch sample: classifies as OPTIMAL (Beers default medium/6,
stock 20). -/
def optimalSample : Item :=
  { name := "Lager", category := "Beers", stock := 20, priority := none,
    alertThreshold := none }

/-- A batch of five items, one per status, in a scrambled input order
(the urgent one is `spiritsSample`). -/
def mixedBatch : List Item :=
  [goodSample, infoSample, optimalSample, normalSample, spiritsSample]

/-- Claim C1: with the resolved priority configuration, the classifier
returns URGENT when stock is at or below the threshold with high priority,
NORMAL with medium, INFO with low; GOOD when the threshold is exceeded by
at most a factor of two; and OPTIMAL above twice the threshold.  The item
is assumed to satisfy the data-model invariant `stock >= 0` (without it,
a negative resolved threshold would let the low-stock and the
above-twice-threshold ranges overlap). -/
theorem calculateStockStatus_decision_table (item : Item)
    (hstock : 0 ≤ item.stock) :
    (item.stock ≤ (getProductPriority item).threshold →
      ((getProductPriority item).priority = "high" →
        (calculateStockStatus item).status = StockStatus.urgent) ∧
      ((getProductPriority item).priority = "medium" →
        (calculateStockStatus item).status = StockStatus.normal) ∧
      ((getProductPriority item).priority = "low" →
        (calculateStockStatus item).status = StockStatus.info)) ∧
    ((getProductPriority item).threshold < item.stock →
      item.stock ≤ 2 * (getProductPriority item).threshold →
      (calculateStockStatus item).status = StockStatus.good) ∧
    (2 * (getProductPriority item).threshold < item.stock →
      (calculateStockStatus item).status = StockStatus.optimal) := by
  refine ⟨fun hs => ⟨fun hp => ?_, fun hp => ?_, fun hp => ?_⟩,
    fun h1 h2 => ?_, fun h => ?_⟩ <;>
    simp only [calculateStockStatus] <;>
    split_ifs <;>
    first
      | rfl
      | omega
      | simp_all

/-- Concrete instance of the decision table: the defaulted Spirits sample
(high priority, threshold 2) at stock 1 classifies as URGENT. -/
theorem calculateStockStatus_decision_table_witness :
    (calculateStockStatus spiritsSample).status = StockStatus.urgent :=
  ((calculateStockStatus_decision_table spiritsSample (by decide)).1
    (by decide)).1 (by decide)

/-- Claim C4: the suggested reorder quantity is
`max(10, threshold * 3 - stock)`, hence always at least 10; at stock 20
and threshold 3 it is 10. -/
theorem calculateSuggestedQuantity_spec (item : Item) (config : PriorityConfig) :
    calculateSuggestedQuantity item config =
      max 10 (config.threshold * 3 - item.stock) ∧
    10 ≤ calculateSuggestedQuantity item config ∧
    (item.stock = 20 → config.threshold = 3 →
      calculateSuggestedQuantity item config = 10) := by
  refine ⟨rfl, le_max_left _ _, fun h1 h2 => ?_⟩
  simp [calculateSuggestedQuantity, h1, h2]

/-- Concrete instance: stock 20 with threshold 3 suggests 10 (not -11). -/
theorem calculateSuggestedQuantity_spec_witness :
    calculateSuggestedQuantity
      { spiritsSample with stock := 20 } ⟨"high", 3⟩ = 10 :=
  (calculateSuggestedQuantity_spec { spiritsSample with stock := 20 }
    ⟨"high", 3⟩).2.2 rfl rfl

/-- Claim C5: the estimated days until empty equal
`max(1, ceil(stock / 2))`; in particular 1 at stock 0 and 5 at stock 9. -/
theorem estimateDaysUntilEmpty_spec (item : Item) :
    estimateDaysUntilEmpty item = max 1 ((item.stock + 1) / 2) ∧
    (item.stock = 0 → estimateDaysUntilEmpty item = 1) ∧
    (item.stock = 9 → estimateDaysUntilEmpty item = 5) := by
  have hceil : jsCeilDiv item.stock 2 = (item.stock + 1) / 2 := by
    unfold jsCeilDiv
    omega
  refine ⟨by simp [estimateDaysUntilEmpty, hceil], fun h => ?_, fun h => ?_⟩ <;>
    simp [estimateDaysUntilEmpty, jsCeilDiv, h]

/-- Concrete instances: 1 day at stock 0, 5 days at stock 9. -/
theorem estimateDaysUntilEmpty_spec_witness :
    estimateDaysUntilEmpty { spiritsSample with stock := 0 } = 1 ∧
    estimateDaysUntilEmpty { spiritsSample with stock := 9 } = 5 :=
  ⟨(estimateDaysUntilEmpty_spec { spiritsSample with stock := 0 }).2.1 rfl,
   (estimateDaysUntilEmpty_spec { spiritsSample with stock := 9 }).2.2 rfl⟩

/-- Claim C9: a present-but-falsy own field (threshold 0, or empty-string
priority) is ignored by `getProductPriority`, which falls back to the
category default (or to `\x7bmedium, 3\x7d`); an explicit threshold of 0
therefore never reaches the classifier. -/
theorem getProductPriority_falsy_fallback (item : Item) :
    (item.alertThreshold = some 0 →
      (getProductPriority item).threshold =
        ((DEFAULT_PRIORITIES item.category).getD ⟨"medium", 3⟩).threshold ∧
      (getProductPriority item).threshold ≠ 0) ∧
    (item.priority = some "" →
      (getProductPriority item).priority =
        ((DEFAULT_PRIORITIES item.category).getD ⟨"medium", 3⟩).priority) := by
  refine ⟨fun h => ⟨?_, ?_⟩, fun h => ?_⟩
  · simp [getProductPriority, jsOrInt, h]
  · simp only [getProductPriority, jsOrInt, h, DEFAULT_PRIORITIES]
    split_ifs <;> simp
  · simp [getProductPriority, jsOrStr, h]

/-- Concrete instance: a Wines item with `alertThreshold = 0` and
`priority = ""` resolves to the Wines default (medium, 3). -/
theorem getProductPriority_falsy_fallback_witness :
    (getProductPriority
      { name := "Rioja", category := "Wines", stock := 5, priority := some "",
        alertThreshold := some 0 }).threshold = 3 ∧
    (getProductPriority
      { name := "Rioja", category := "Wines", stock := 5, priority := some "",
        alertThreshold := some 0 }).priority = "medium" := by
  have h := getProductPriority_falsy_fallback
    { name := "Rioja", category := "Wines", stock := 5, priority := some "",
      alertThreshold := some 0 }
  exact ⟨by rw [(h.1 rfl).1]; decide, by rw [h.2 rfl]; decide⟩

/-- Claim C10: when the resolved priority matches none of high, medium and
low, the unmatched switch falls through to the final return, so an item at
or below its threshold still classifies as OPTIMAL with the well-stocked
message. -/
theorem calculateStockStatus_unmatched_priority (item : Item)
    (h1 : (getProductPriority item).priority ≠ "high")
    (h2 : (getProductPriority item).priority ≠ "medium")
    (h3 : (getProductPriority item).priority ≠ "low")
    (hs : item.stock ≤ (getProductPriority item).threshold) :
    calculateStockStatus item =
      { status := StockStatus.optimal, message := "Optimal: Well stocked" } := by
  simp only [calculateStockStatus]
  split_ifs
  all_goals simp_all

/-- Concrete instance: a Spirits item with the unmatched priority string
"critical" and no stock at all classifies as OPTIMAL. -/
theorem calculateStockStatus_unmatched_priority_witness :
    calculateStockStatus
      { name := "Mystery", category := "Spirits", stock := 0,
        priority := some "critical", alertThreshold := none } =
      { status := StockStatus.optimal, message := "Optimal: Well stocked" } :=
  calculateStockStatus_unmatched_priority
    { name := "Mystery", category := "Spirits", stock := 0,
      priority := some "critical", alertThreshold := none }
    (by decide) (by decide) (by decide) (by decide)

/-- Claim C7: `canModifyStock` holds for any authenticated user and fails
when unauthenticated; `canManageProducts` exactly for manager or admin;
`canManagePriorities` exactly for admin; with the concrete role checks for
the staff, manager and admin accounts of the static role table. -/
theorem permission_checks_spec (s : AuthState) :
    (canModifyStock s = true ↔ s.currentUser ≠ none) ∧
    (s.currentUser = none → canModifyStock s = false) ∧
    (canManageProducts s = true ↔
      (s.userRole = "manager" ∨ s.userRole = "admin")) ∧
    (canManagePriorities s = true ↔ s.userRole = "admin") ∧
    (canModifyStock (authStateFor (some "staff@wishbone.com")) = true ∧
     canManageProducts (authStateFor (some "staff@wishbone.com")) = false) ∧
    (canManageProducts (authStateFor (some "manager@wishbone.com")) = true ∧
     canManagePriorities (authStateFor (some "manager@wishbone.com")) = false) ∧
    (canModifyStock (authStateFor (some "admin@wishbone.com")) = true ∧
     canManageProducts (authStateFor (some "admin@wishbone.com")) = true ∧
     canManagePriorities (authStateFor (some "admin@wishbone.com")) = true) ∧
    canModifyStock (authStateFor none) = false := by
  refine ⟨?_, ?_, ?_, ?_, by decide, by decide, by decide, by decide⟩
  · cases h : s.currentUser <;> simp [canModifyStock, h]
  · intro h
    simp [canModifyStock, h]
  · constructor
    · intro h
      rcases (by simpa [canManageProducts] using h) with h | h
      · exact Or.inr h
      · exact Or.inl h
    · intro h
      rcases h with h | h <;> simp [canManageProducts, h]
  · simp [canManagePriorities]

/-- Concrete instance: the signed-in staff account may modify stock but
not manage products. -/
theorem permission_checks_spec_witness :
    canModifyStock (authStateFor (some "staff@wishbone.com")) = true ∧
    canManageProducts (authStateFor (some "staff@wishbone.com")) = false :=
  (permission_checks_spec (authStateFor (some "staff@wishbone.com"))).2.2.2.2.1

/-- Claim C8: the display view is exactly the first 6 alerts (all of them
when there are 6 or fewer), the hidden count is `max(0, total - 6)`, and
the underlying list is not truncated (the display view is a prefix and the
rest of the list is still there behind it). -/
theorem getDisplayAlerts_spec (alerts : List Alert) :
    getDisplayAlerts alerts = alerts.take 6 ∧
    (alerts.length ≤ 6 → getDisplayAlerts alerts = alerts) ∧
    (getDisplayAlerts alerts).length = min 6 alerts.length ∧
    getHiddenAlertCount alerts = max 0 ((alerts.length : Int) - 6) ∧
    getDisplayAlerts alerts ++ alerts.drop 6 = alerts := by
  refine ⟨rfl, fun h => ?_, ?_, rfl, ?_⟩
  · exact List.take_of_length_le h
  · simp [getDisplayAlerts, MAX_VISIBLE_ALERTS]
  · exact List.take_append_drop 6 alerts

/-- Concrete instance: a list of fewer than 6 alerts is displayed whole. -/
theorem getDisplayAlerts_spec_witness :
    getDisplayAlerts [] = ([] : List Alert) :=
  (getDisplayAlerts_spec []).2.1 (by simp)

/-- Claim C2 counterexample: an `add` update carrying a negative quantity
passes the endpoint's checks and stores a negative stock, so "every stock
update whose resulting stock would be negative fails and stock >= 0 is
preserved by every stock update" is false as stated: starting from stock 0,
`add` of -5 succeeds and leaves stock -5. -/
theorem updateStock_negative_add_counterexample :
    updateStock 0 (-5) "add" = Except.ok (-5) ∧
    applyStockUpdate 0 (-5) "add" = -5 ∧
    applyStockUpdate 0 (-5) "add" < 0 :=
  ⟨rfl, rfl, by decide⟩

/-- Claim C2, amended: a `subtract` update whose result would be negative
fails with the 400 "Cannot have negative stock" error and leaves the
stored stock unchanged; consequently stock >= 0 is preserved by every
stock update with a non-negative quantity starting from a non-negative
stock (an `add` with a negative quantity escapes the check), and the
frontend absolute update never stores a negative stock. -/
theorem updateStock_preserves_nonneg (currentStock quantity : Int)
    (hcur : 0 ≤ currentStock) (hq : 0 ≤ quantity) (action : String) :
    (action = "subtract" → currentStock - quantity < 0 →
      updateStock currentStock quantity action =
        Except.error (400, "Cannot have negative stock") ∧
      applyStockUpdate currentStock quantity action = currentStock) ∧
    0 ≤ applyStockUpdate currentStock quantity action ∧
    (∀ newStock result,
      updateStockFrontend newStock = Except.ok result → 0 ≤ result) := by
  refine ⟨fun ha hneg => ?_, ?_, fun newStock result h => ?_⟩
  · subst ha
    simp [updateStock, applyStockUpdate, hneg]
  · by_cases h1 : action = ""
    · simp [applyStockUpdate, updateStock, h1, hcur]
    · by_cases h2 : action = "add"
      · simp [applyStockUpdate, updateStock, h1, h2]
        omega
      · by_cases h3 : action = "subtract"
        · by_cases h4 : currentStock - quantity < 0
          · have : currentStock < quantity := by omega
            simp [applyStockUpdate, updateStock, h1, h2, h3, this, hcur]
          · have : ¬ currentStock < quantity := by omega
            simp [applyStockUpdate, updateStock, h1, h2, h3, this]
            omega
        · simp [applyStockUpdate, updateStock, h1, h2, h3, hcur]
  · unfold updateStockFrontend at h
    rcases Decidable.em (newStock < 0) with hn | hn
    · rw [if_pos hn] at h
      exact absurd h (by simp)
    · rw [if_neg hn] at h
      obtain rfl : newStock = result := by simpa using h
      omega

/-- Concrete instance: subtracting 5 from a stock of 3 is rejected with
the negative-stock error and the stock stays 3. -/
theorem updateStock_preserves_nonneg_witness :
    updateStock 3 5 "subtract" =
      Except.error (400, "Cannot have negative stock") ∧
    applyStockUpdate 3 5 "subtract" = 3 :=
  (updateStock_preserves_nonneg 3 5 (by decide) (by decide) "subtract").1
    rfl (by decide)

/-- Folding the join step from a seed `a ++ b` prepends `a` to the fold
from the seed `b`. -/
theorem foldl_join_append (sep : String) (xs : List String) :
    ∀ a b : String,
      xs.foldl (fun acc cell => acc ++ sep ++ cell) (a ++ b) =
        a ++ xs.foldl (fun acc cell => acc ++ sep ++ cell) b := by
  induction xs with
  | nil =>
    intro a b
    rfl
  | cons c cs ih =>
    intro a b
    simp only [List.foldl_cons]
    rw [String.append_assoc a b sep, String.append_assoc a (b ++ sep) c]
    exact ih a (b ++ sep ++ c)

/-- Joining at least two cells starts with the first cell and the
separator. -/
theorem joinWith_cons_cons (sep x y : String) (ys : List String) :
    joinWith sep (x :: y :: ys) = x ++ sep ++ joinWith sep (y :: ys) := by
  show (y :: ys).foldl (fun acc cell => acc ++ sep ++ cell) x = _
  simp only [List.foldl_cons]
  rw [foldl_join_append sep ys (x ++ sep) y]
  rfl

set_option maxRecDepth 10000 in
/-- Claim C6, amended: every CSV row wraps the product name verbatim in
double quotes, so apostrophes are preserved (the Jack Daniels export
contains the quoted name as a substring); embedded double quotes are NOT
escaped per standard CSV - the name is inserted between the quotes
unchanged (see the counterexample). -/
theorem exportAlertsAsCSV_quotes_names (alert : Alert) :
    (∃ rest, csvRow alert =
      "\"" ++ alert.product.name ++ "\"" ++ "," ++ rest) ∧
    exportAlertsAsCSV [mkAlert jackDanielsItem] =
      "Product,Category,Current Stock,Threshold,Priority,Status,Message,Days Until Empty,Suggested Quantity\n" ++
      "\"Jack Daniel\x27s\"" ++
      ",Spirits,1,2,high,URGENT,\"URGENT: Needs immediate restock!\",1,10" := by
  constructor
  · refine ⟨joinWith ","
      [alert.product.category, toString alert.product.stock,
       toString alert.threshold, alert.priority, statusUpper alert.status,
       quoteField alert.message, toString alert.daysUntilEmpty,
       toString alert.suggestedQuantity], ?_⟩
    show joinWith ","
      (quoteField alert.product.name :: alert.product.category ::
        [toString alert.product.stock, toString alert.threshold,
         alert.priority, statusUpper alert.status, quoteField alert.message,
         toString alert.daysUntilEmpty, toString alert.suggestedQuantity]) = _
    rw [joinWith_cons_cons]
    rfl
  · decide

set_option maxRecDepth 10000 in
/-- Claim C6 counterexample: a product name with an embedded double quote
is not double-quote-escaped: the export emits `"Bad"Name"` (the name
between quotes unchanged), not the standard-CSV `"Bad""Name"`. -/
theorem exportAlertsAsCSV_unescaped_quote_counterexample :
    quoteField "Bad\"Name" = "\"Bad\"Name\"" ∧
    quoteField "Bad\"Name" ≠ "\"Bad\"\"Name\"" ∧
    exportAlertsAsCSV [mkAlert csvBadItem] =
      "Product,Category,Current Stock,Threshold,Priority,Status,Message,Days Until Empty,Suggested Quantity\n" ++
      "\"Bad\"Name\",Spirits,1,2,high,URGENT,\"URGENT: Needs immediate restock!\",1,10" := by
  refine ⟨rfl, by decide, by decide⟩

/-- The sort relation of the urgency comparator is transitive. -/
theorem alertLE_trans : ∀ a b c : Alert, alertLE a b → alertLE b c → alertLE a c := by
  intro a b c hab hbc
  simp only [alertLE, decide_eq_true_eq] at *
  omega

/-- The sort relation of the urgency comparator is total. -/
theorem alertLE_total : ∀ a b : Alert, alertLE a b || alertLE b a := by
  intro a b
  simp only [alertLE, Bool.or_eq_true, decide_eq_true_eq]
  omega

/-- Mapping the product back out of the built alerts recovers the items. -/
theorem map_product_mkAlert (l : List Item) :
    (l.map mkAlert).map Alert.product = l := by
  induction l with
  | nil => rfl
  | cons x xs ih =>
    show (mkAlert x).product :: (xs.map mkAlert).map Alert.product = x :: xs
    rw [ih]
    rfl

/-- Claim C3: the generated alerts are exactly one alert per item whose
classified status is URGENT, NORMAL or INFO (GOOD and OPTIMAL items
produce none), ordered with every URGENT alert before every NORMAL alert
before every INFO alert; on the mixed batch of five items the result is
exactly the three alerts for the urgent, normal and info items, in that
order. -/
theorem generateAlerts_spec (items : List Item) :
    ((generateAlerts items).map Alert.product).Perm
      (items.filter (fun p => needsAttention (calculateStockStatus p).status)) ∧
    (∀ a ∈ generateAlerts items,
      a = mkAlert a.product ∧
      needsAttention (calculateStockStatus a.product).status = true) ∧
    (generateAlerts items).Pairwise
      (fun a b => priorityOrder b.status ≤ priorityOrder a.status) ∧
    generateAlerts mixedBatch =
      [mkAlert spiritsSample, mkAlert normalSample, mkAlert infoSample] := by
  refine ⟨?_, ?_, ?_, ?_⟩
  · have h := List.mergeSort_perm
      ((items.filter
        (fun p => needsAttention (calculateStockStatus p).status)).map mkAlert)
      alertLE
    have h2 := h.map Alert.product
    rw [map_product_mkAlert] at h2
    exact h2
  · intro a ha
    have hmem : a ∈ (items.filter
        (fun p => needsAttention (calculateStockStatus p).status)).map mkAlert := by
      simpa [generateAlerts] using ha
    obtain ⟨p, hp, rfl⟩ := List.mem_map.mp hmem
    exact ⟨rfl, (List.mem_filter.mp hp).2⟩
  · have h := @List.sorted_mergeSort Alert alertLE alertLE_trans alertLE_total
      ((items.filter
        (fun p => needsAttention (calculateStockStatus p).status)).map mkAlert)
    refine h.imp ?_
    intro a b hab
    simpa [alertLE] using hab
  · have hfil : (mixedBatch.filter
        (fun p => needsAttention (calculateStockStatus p).status)).map mkAlert =
        [mkAlert infoSample, mkAlert normalSample, mkAlert spiritsSample] := by
      decide
    show ((mixedBatch.filter
      (fun p => needsAttention (calculateStockStatus p).status)).map
        mkAlert).mergeSort alertLE = _
    rw [hfil]
    have s1 : (mkAlert infoSample).status = StockStatus.info := rfl
    have s2 : (mkAlert normalSample).status = StockStatus.normal := rfl
    have s3 : (mkAlert spiritsSample).status = StockStatus.urgent := rfl
    simp [List.mergeSort, List.merge, alertLE, s1, s2, s3, priorityOrder]

/-- Concrete instance: the urgent alert of the mixed batch is one of the
generated alerts, built from its own product, which needs attention. -/
theorem generateAlerts_spec_witness :
    mkAlert spiritsSample = mkAlert (mkAlert spiritsSample).product ∧
    needsAttention
      (calculateStockStatus (mkAlert spiritsSample).product).status = true :=
  (generateAlerts_spec mixedBatch).2.1 (mkAlert spiritsSample) (by
    rw [(generateAlerts_spec mixedBatch).2.2.2]
    simp)
